import Mathlib

/-!
Verification development for the LifeFlow.ai guidance confidence and
classification pipeline.

The repository's visible source is the Next.js frontend; the FastAPI backend
(confidence triangulator, domain classifier, RAG guidance generator) is not
present under the repository's source tree, so those components are modelled
from the specification, as marked on each definition.  The frontend handlers
(classification intake, situation creation, clarification submission) are
embedded directly from the TypeScript source.

Floating-point numbers are modelled as rationals (`ℚ`); the quantities
involved (confidence scores, similarity scores, weights) are plain arithmetic
with no float-specific behaviour in the claims under study.
-/

namespace LifeFlow

/-! ## Confidence Triangulator (spec §4.4; backend not under src) -/

/-- Reliability band of a triangulated confidence score. -/
inductive Reliability where
  | low
  | medium
  | high
deriving DecidableEq, Repr

/-- Clamp a rational to the unit interval. -/
def clamp01 (x : ℚ) : ℚ := max 0 (min x 1)

/-- Modelled from the spec: reliability band boundaries of §4.4
("score ≥0.75 → high; 0.4 ≤ score <0.75 → medium; else low").
The backend confidence system is not in the repository's visible source. -/
def reliabilityBand (s : ℚ) : Reliability :=
  if 3/4 ≤ s then Reliability.high
  else if 2/5 ≤ s then Reliability.medium
  else Reliability.low

/-- Breakdown of triangulation inputs echoed in the result. -/
structure TriangulationBreakdown where
  llm : ℚ
  retrieval : ℚ
  historical : ℚ
deriving DecidableEq, Repr

/-- Result of confidence triangulation. -/
structure TriangulationResult where
  score : ℚ
  reliability : Reliability
  breakdown : TriangulationBreakdown
deriving DecidableEq, Repr

/-- Modelled from the spec: §4.4 Confidence Triangulator (backend service,
not in the repository's visible source).  Weighted combination
0.4/0.35/0.25 clamped to [0,1]; if retrievalQuality < 0.3 the final score
is capped at 0.5 regardless of the other inputs. -/
def triangulate (llmCertainty retrievalQuality historicalAccuracy : ℚ) :
    TriangulationResult :=
  let weighted := clamp01
    (2/5 * llmCertainty + 7/20 * retrievalQuality + 1/4 * historicalAccuracy)
  let score := if retrievalQuality < 3/10 then min weighted (1/2) else weighted
  { score := score
    reliability := reliabilityBand score
    breakdown :=
      { llm := llmCertainty
        retrieval := retrievalQuality
        historical := historicalAccuracy } }

/-! ## Classifier confidence normalization (spec §4.1; backend not under src) -/

/-- A confidence value as reported by the model layer: either a numeric value
(possibly out of range) or something non-numeric. -/
inductive ModelConfidence where
  | numeric (x : ℚ)
  | nonNumeric
deriving DecidableEq, Repr

/-- Low-confidence default used when the model layer reports an unusable
confidence (spec §4.1). -/
def DEFAULT_LOW_CONFIDENCE : ℚ := 3/10

/-- Modelled from the spec: §4.1 — the classifier must clip confidence to
[0,1]; an out-of-range or non-numeric confidence from the model layer is
replaced by the low-confidence default 0.3 rather than failing.  The backend
classifier is not in the repository's visible source. -/
def normalizeConfidence : ModelConfidence → ℚ
  | ModelConfidence.numeric x =>
      if 0 ≤ x ∧ x ≤ 1 then x else DEFAULT_LOW_CONFIDENCE
  | ModelConfidence.nonNumeric => DEFAULT_LOW_CONFIDENCE

/-! ## Basic bounds lemmas -/

lemma clamp01_nonneg (x : ℚ) : 0 ≤ clamp01 x := le_max_left 0 _

lemma clamp01_le_one (x : ℚ) : clamp01 x ≤ 1 := by
  unfold clamp01
  exact max_le (by norm_num) (min_le_right x 1)

lemma triangulate_score_nonneg (l r h : ℚ) : 0 ≤ (triangulate l r h).score := by
  unfold triangulate
  dsimp only
  split
  · exact le_min (clamp01_nonneg _) (by norm_num)
  · exact clamp01_nonneg _

lemma triangulate_score_le_one (l r h : ℚ) : (triangulate l r h).score ≤ 1 := by
  unfold triangulate
  dsimp only
  split
  · exact le_trans (min_le_left _ _) (clamp01_le_one _)
  · exact clamp01_le_one _

lemma triangulate_reliability_eq (l r h : ℚ) :
    (triangulate l r h).reliability = reliabilityBand (triangulate l r h).score := by
  unfold triangulate
  dsimp only

/-! ## Claim theorems: triangulation -/

/-- C1: for every input triple with retrievalQuality < 0.3, the triangulate
operation returns a score ≤ 0.5, regardless of llmCertainty and
historicalAccuracy (retrieval-quality gating invariant). -/
theorem triangulate_gating_cap (l r h : ℚ) (hr : r < 3/10) :
    (triangulate l r h).score ≤ 1/2 := by
  unfold triangulate
  dsimp only
  rw [if_pos hr]
  exact min_le_right _ _

theorem triangulate_gating_cap_witness :
    ((1 : ℚ) / 10 < 3/10) ∧ (triangulate 1 (1/10) 1).score ≤ 1/2 :=
  ⟨by norm_num, triangulate_gating_cap 1 (1/10) 1 (by norm_num)⟩

/-- C2: for every input triple the triangulated score lies in [0,1], the
reliability band is determined exactly by the score with exact boundaries
(score ≥ 0.75 is high, 0.4 ≤ score < 0.75 is medium, score < 0.4 is low),
so a score of 0.75 maps to high and a score of 0.749999 maps to medium. -/
theorem triangulate_range_and_band :
    (∀ l r h : ℚ,
        0 ≤ (triangulate l r h).score ∧ (triangulate l r h).score ≤ 1 ∧
        (triangulate l r h).reliability = reliabilityBand (triangulate l r h).score)
    ∧ (∀ s : ℚ,
        (reliabilityBand s = Reliability.high ↔ 3/4 ≤ s) ∧
        (reliabilityBand s = Reliability.medium ↔ 2/5 ≤ s ∧ s < 3/4) ∧
        (reliabilityBand s = Reliability.low ↔ s < 2/5))
    ∧ reliabilityBand (3/4) = Reliability.high
    ∧ reliabilityBand (749999/1000000) = Reliability.medium := by
  refine ⟨fun l r h => ⟨triangulate_score_nonneg l r h, triangulate_score_le_one l r h,
      triangulate_reliability_eq l r h⟩, fun s => ?_, ?_, ?_⟩
  · unfold reliabilityBand
    split_ifs with h1 h2
    · exact ⟨⟨fun _ => h1, fun _ => rfl⟩,
        ⟨False.elim, fun hc => by linarith [hc.2]⟩,
        ⟨False.elim, fun hc => by linarith⟩⟩
    · exact ⟨⟨False.elim, fun hc => h1 hc⟩,
        ⟨fun _ => ⟨h2, not_le.mp h1⟩, fun _ => rfl⟩,
        ⟨False.elim, fun hc => by linarith⟩⟩
    · exact ⟨⟨False.elim, fun hc => h1 hc⟩,
        ⟨False.elim, fun hc => h2 hc.1⟩,
        ⟨fun _ => not_le.mp h2, fun _ => rfl⟩⟩
  · norm_num [reliabilityBand]
  · norm_num [reliabilityBand]

/-- C4: the classifier-normalized confidence always lies in [0,1]; an
out-of-range value such as 1.4 is replaced by the low-confidence default
0.3, as is a non-numeric value, so the invalid value is never propagated. -/
theorem normalizeConfidence_range_and_default :
    (∀ c : ModelConfidence,
        0 ≤ normalizeConfidence c ∧ normalizeConfidence c ≤ 1)
    ∧ normalizeConfidence (ModelConfidence.numeric (7/5)) = DEFAULT_LOW_CONFIDENCE
    ∧ normalizeConfidence ModelConfidence.nonNumeric = 3/10
    ∧ DEFAULT_LOW_CONFIDENCE = 3/10 := by
  refine ⟨fun c => ?_, ?_, ?_, rfl⟩
  · cases c with
    | numeric x =>
        simp only [normalizeConfidence]
        split_ifs with hx
        · exact ⟨hx.1, hx.2⟩
        · exact ⟨by norm_num [DEFAULT_LOW_CONFIDENCE], by norm_num [DEFAULT_LOW_CONFIDENCE]⟩
    | nonNumeric =>
        exact ⟨by norm_num [normalizeConfidence, DEFAULT_LOW_CONFIDENCE],
          by norm_num [normalizeConfidence, DEFAULT_LOW_CONFIDENCE]⟩
  · norm_num [normalizeConfidence, DEFAULT_LOW_CONFIDENCE]
  · norm_num [normalizeConfidence, DEFAULT_LOW_CONFIDENCE]

/-! ## Data model

`RiskAssessment` and `DomainClassification` are embedded from the TypeScript
interface in src/unnamed/part_015 lines 9–21; the guidance response types are
embedded from src/frontend/src/app/dashboard/page.tsx lines 228–261. -/

/-- Risk assessment attached to a classification (src/unnamed/part_015:15–20). -/
structure RiskAssessment where
  safe_to_proceed : Bool
  risk_score : ℤ
  recommendation : String
  message : Option String
deriving DecidableEq, Repr

/-- A domain classification result (src/unnamed/part_015:9–21). -/
structure DomainClassification where
  primary_domain : String
  secondary_domain : Option String
  related_domains : List String
  confidence : ℚ
  user_friendly_summary : String
  risk_assessment : RiskAssessment
deriving DecidableEq, Repr

/-- A single actionable suggestion (dashboard/page.tsx:228–235). -/
structure Suggestion where
  title : String
  description : String
  why_it_matters : String
  urgency : String
  can_skip : Bool
  estimated_time : Option String
deriving DecidableEq, Repr

/-- A cited source entry (dashboard/page.tsx:239–243). -/
structure SourceRef where
  title : String
  authority : String
  document_id : ℕ
deriving DecidableEq, Repr

/-- Breakdown of the triangulated confidence (dashboard/page.tsx:248–252). -/
structure ConfidenceBreakdown where
  llm : ℚ
  retrieval : ℚ
  historical : ℚ
deriving DecidableEq, Repr

/-- Confidence block of a guidance response (dashboard/page.tsx:244–253). -/
structure GuidanceConfidence where
  score : ℚ
  reliability : String
  explanation : String
  breakdown : ConfidenceBreakdown
deriving DecidableEq, Repr

/-- Metadata block of a guidance response (dashboard/page.tsx:256–260). -/
structure GuidanceMetadata where
  session_id : ℕ
  chunks_retrieved : ℕ
  domain : String
deriving DecidableEq, Repr

/-- A guidance response (dashboard/page.tsx:237–261). -/
structure GuidanceResponse where
  suggestions : List Suggestion
  sources : List SourceRef
  confidence : GuidanceConfidence
  caveats : List String
  cross_domain_insights : List String
  metadata : GuidanceMetadata
deriving DecidableEq, Repr

/-! ## Classifier risk policy and guidance flow (spec §4.1, §7; backend not under src) -/

/-- Default escalation recommendation directing the user toward a human or
professional channel (spec §4.1). -/
def ESCALATION_RECOMMENDATION : String :=
  "Please contact a qualified professional or official human support channel for this matter."

/-- Modelled from the spec: §4.1 — any risk_score ≥ 4 forces
safe_to_proceed = false and requires a recommendation string guiding the
user toward a human or professional channel.  The backend classifier is not
in the repository's visible source. -/
def enforceRiskPolicy (ra : RiskAssessment) : RiskAssessment :=
  if 4 ≤ ra.risk_score then
    { ra with
      safe_to_proceed := false
      recommendation :=
        if ra.recommendation = "" then ESCALATION_RECOMMENDATION
        else ra.recommendation }
  else ra

/-- Modelled from the spec: classifier post-processing — normalize the model
layer's confidence (§4.1) and enforce the risk policy on the risk assessment.
The backend classifier is not in the repository's visible source. -/
def classifyPostProcess (raw : DomainClassification) (rawConf : ModelConfidence) :
    DomainClassification :=
  { raw with
    confidence := normalizeConfidence rawConf
    risk_assessment := enforceRiskPolicy raw.risk_assessment }

/-- Outcome of the guidance flow: either a risk escalation or ordinary
suggestions. -/
inductive GuidanceOutcome where
  | riskEscalationRequired (recommendation : String)
  | normalSuggestions (resp : GuidanceResponse)
deriving DecidableEq, Repr

/-- Modelled from the spec: §7 — risk_score ≥ 4 must short-circuit the normal
guidance flow and return the risk recommendation (RiskEscalationRequired)
instead of ordinary suggestions.  The backend guidance flow is not in the
repository's visible source. -/
def guidanceFlow (c : DomainClassification) (resp : GuidanceResponse) :
    GuidanceOutcome :=
  if 4 ≤ c.risk_assessment.risk_score then
    GuidanceOutcome.riskEscalationRequired c.risk_assessment.recommendation
  else GuidanceOutcome.normalSuggestions resp

lemma enforceRiskPolicy_risk_score (ra : RiskAssessment) :
    (enforceRiskPolicy ra).risk_score = ra.risk_score := by
  unfold enforceRiskPolicy
  split_ifs <;> rfl

/-- C3: whenever the classification's risk_score is ≥ 4, the classifier output
has safe_to_proceed = false and a non-empty recommendation, and the guidance
flow returns RiskEscalationRequired instead of ordinary suggestions. -/
theorem high_risk_never_routine (raw : DomainClassification)
    (rawConf : ModelConfidence) (resp : GuidanceResponse)
    (hrisk : 4 ≤ raw.risk_assessment.risk_score) :
    (classifyPostProcess raw rawConf).risk_assessment.safe_to_proceed = false
    ∧ (classifyPostProcess raw rawConf).risk_assessment.recommendation ≠ ""
    ∧ guidanceFlow (classifyPostProcess raw rawConf) resp =
        GuidanceOutcome.riskEscalationRequired
          (classifyPostProcess raw rawConf).risk_assessment.recommendation
    ∧ ∀ r : GuidanceResponse,
        guidanceFlow (classifyPostProcess raw rawConf) resp ≠
          GuidanceOutcome.normalSuggestions r := by
  have hra : (classifyPostProcess raw rawConf).risk_assessment =
      enforceRiskPolicy raw.risk_assessment := rfl
  have hscore : (classifyPostProcess raw rawConf).risk_assessment.risk_score =
      raw.risk_assessment.risk_score := by
    rw [hra, enforceRiskPolicy_risk_score]
  have hsafe : (enforceRiskPolicy raw.risk_assessment).safe_to_proceed = false := by
    unfold enforceRiskPolicy
    rw [if_pos hrisk]
  have hrec : (enforceRiskPolicy raw.risk_assessment).recommendation ≠ "" := by
    unfold enforceRiskPolicy
    rw [if_pos hrisk]
    dsimp only
    split_ifs with he
    · intro hcontra
      exact absurd hcontra (by decide)
    · exact he
  have hflow : guidanceFlow (classifyPostProcess raw rawConf) resp =
      GuidanceOutcome.riskEscalationRequired
        (classifyPostProcess raw rawConf).risk_assessment.recommendation := by
    unfold guidanceFlow
    rw [if_pos (hscore ▸ hrisk)]
  refine ⟨hra ▸ hsafe, hra ▸ hrec, hflow, ?_⟩
  intro r
  rw [hflow]
  intro hcontra
  exact GuidanceOutcome.noConfusion hcontra

/-- Sample high-risk raw classification used to instantiate the safety
invariant on a concrete input. -/
def sampleHighRiskRaw : DomainClassification :=
  { primary_domain := "Legal"
    secondary_domain := none
    related_domains := []
    confidence := 9/10
    user_friendly_summary := "threat of arrest"
    risk_assessment :=
      { safe_to_proceed := true
        risk_score := 5
        recommendation := ""
        message := some "Please seek immediate professional help." } }

/-- Sample guidance response used to instantiate theorems on concrete input. -/
def sampleResponse : GuidanceResponse :=
  { suggestions := []
    sources := []
    confidence :=
      { score := 1/2
        reliability := "medium"
        explanation := "sample"
        breakdown := { llm := 1/2, retrieval := 1/2, historical := 1/2 } }
    caveats := []
    cross_domain_insights := []
    metadata := { session_id := 1, chunks_retrieved := 0, domain := "Legal" } }

theorem high_risk_never_routine_witness :
    ((4 : ℤ) ≤ sampleHighRiskRaw.risk_assessment.risk_score)
    ∧ ((classifyPostProcess sampleHighRiskRaw
          (ModelConfidence.numeric (9/10))).risk_assessment.safe_to_proceed = false
        ∧ (classifyPostProcess sampleHighRiskRaw
          (ModelConfidence.numeric (9/10))).risk_assessment.recommendation ≠ ""
        ∧ guidanceFlow (classifyPostProcess sampleHighRiskRaw
            (ModelConfidence.numeric (9/10))) sampleResponse =
          GuidanceOutcome.riskEscalationRequired
            (classifyPostProcess sampleHighRiskRaw
              (ModelConfidence.numeric (9/10))).risk_assessment.recommendation
        ∧ ∀ r : GuidanceResponse,
            guidanceFlow (classifyPostProcess sampleHighRiskRaw
              (ModelConfidence.numeric (9/10))) sampleResponse ≠
              GuidanceOutcome.normalSuggestions r) :=
  ⟨by decide,
    high_risk_never_routine sampleHighRiskRaw (ModelConfidence.numeric (9/10))
      sampleResponse (by decide)⟩

/-! ## Guidance Generator (spec §4.3; backend not under src) -/

/-- A retrieved chunk with its metadata (spec §3 data model). -/
structure RetrievedChunk where
  document_id : ℕ
  title : String
  authority : String
  text : String
  similarity_score : ℚ
deriving DecidableEq, Repr

/-- A drafted suggestion from the generation model together with the document
ids of the retrieved chunks it cites. -/
structure GroundedSuggestion where
  suggestion : Suggestion
  grounding : List ℕ
deriving DecidableEq, Repr

/-- Failures of the guidance generator relevant here (spec §7). -/
inductive GenFailure where
  | insufficientKnowledge
deriving DecidableEq, Repr

/-- Minimum similarity threshold for retrieval (spec §4.3, design default 0.2). -/
def MIN_SIMILARITY : ℚ := 1/5

/-- Caveat text used when generation could not ground every suggestion. -/
def INSUFFICIENT_INFO_CAVEAT : String :=
  "Insufficient authoritative information was available to ground every suggestion."

/-- Source entry derived from a retrieved chunk. -/
def chunkSource (c : RetrievedChunk) : SourceRef :=
  { title := c.title, authority := c.authority, document_id := c.document_id }

/-- Deduplicate source entries by document_id (spec §4.3 step 5). -/
def dedupSources : List RetrievedChunk → List SourceRef
  | [] => []
  | c :: rest =>
    let tail := dedupSources rest
    if tail.any (fun s => s.document_id == c.document_id) then tail
    else chunkSource c :: tail

/-- Modelled from the spec: §4.3 Guidance Generator orchestration (backend
service, not in the repository's visible source).  Chunks below the minimum
similarity threshold are discarded; with no relevant chunk the call fails
fast with InsufficientKnowledge instead of generating ungrounded guidance.
Otherwise only drafted suggestions citing a retrieved chunk are kept (a
suggestion that cannot cite a source is dropped and an explicit
insufficient-information caveat is added instead of fabricating a source),
and sources are the retrieved chunks deduplicated by document_id.  Returns
the response together with the kept grounded suggestions. -/
def generate (chunks : List RetrievedChunk) (drafted : List GroundedSuggestion)
    (conf : GuidanceConfidence) (insights : List String) (meta : GuidanceMetadata) :
    Except GenFailure (GuidanceResponse × List GroundedSuggestion) :=
  let relevant := chunks.filter (fun c => decide (MIN_SIMILARITY ≤ c.similarity_score))
  if relevant.isEmpty then Except.error GenFailure.insufficientKnowledge
  else
    let ids := relevant.map RetrievedChunk.document_id
    let kept := drafted.filter (fun g => g.grounding.any (fun i => ids.contains i))
    Except.ok
      ({ suggestions := kept.map GroundedSuggestion.suggestion
         sources := dedupSources relevant
         confidence := conf
         caveats :=
           if kept.length = drafted.length then []
           else [INSUFFICIENT_INFO_CAVEAT]
         cross_domain_insights := insights
         metadata := meta }, kept)

lemma dedupSources_covers {c : RetrievedChunk} {chunks : List RetrievedChunk}
    (hc : c ∈ chunks) :
    ∃ s ∈ dedupSources chunks, s.document_id = c.document_id := by
  induction chunks with
  | nil => cases hc
  | cons d rest ih =>
    rcases List.mem_cons.mp hc with hd | hrest
    · subst hd
      unfold dedupSources
      dsimp only
      split_ifs with hany
      · rcases List.any_eq_true.mp hany with ⟨s, hs, hsid⟩
        exact ⟨s, hs, eq_of_beq hsid⟩
      · exact ⟨chunkSource c, List.mem_cons_self _ _, rfl⟩
    · rcases ih hrest with ⟨s, hs, hsid⟩
      unfold dedupSources
      dsimp only
      split_ifs with hany
      · exact ⟨s, hs, hsid⟩
      · exact ⟨s, List.mem_cons_of_mem _ hs, hsid⟩

lemma dedupSources_no_fabrication {s : SourceRef} {chunks : List RetrievedChunk}
    (hs : s ∈ dedupSources chunks) :
    ∃ c ∈ chunks, s = chunkSource c := by
  induction chunks with
  | nil => cases hs
  | cons d rest ih =>
    unfold dedupSources at hs
    dsimp only at hs
    split_ifs at hs with hany
    · rcases ih hs with ⟨c, hc, hceq⟩
      exact ⟨c, List.mem_cons_of_mem _ hc, hceq⟩
    · rcases List.mem_cons.mp hs with hd | hrest
      · exact ⟨d, List.mem_cons_self _ _, hd⟩
      · rcases ih hrest with ⟨c, hc, hceq⟩
        exact ⟨c, List.mem_cons_of_mem _ hc, hceq⟩

/-- C5: every guidance response produced by generate is grounded — each kept
suggestion cites a document id that appears among the response's sources, no
source entry is fabricated (each comes from a retrieved chunk), the listed
suggestions are exactly the kept grounded ones, and if any drafted suggestion
could not cite a source then the explicit insufficient-information caveat is
present in caveats (so suggestions never silently lack sources with empty
caveats). -/
theorem generate_grounding_invariant (chunks : List RetrievedChunk)
    (drafted : List GroundedSuggestion) (conf : GuidanceConfidence)
    (insights : List String) (meta : GuidanceMetadata)
    (resp : GuidanceResponse) (kept : List GroundedSuggestion)
    (hok : generate chunks drafted conf insights meta = Except.ok (resp, kept)) :
    resp.suggestions = kept.map GroundedSuggestion.suggestion
    ∧ (∀ g ∈ kept, ∃ i ∈ g.grounding, ∃ s ∈ resp.sources, s.document_id = i)
    ∧ (∀ s ∈ resp.sources, ∃ c ∈ chunks, s = chunkSource c)
    ∧ (kept.length ≠ drafted.length → INSUFFICIENT_INFO_CAVEAT ∈ resp.caveats) := by
  unfold generate at hok
  dsimp only at hok
  by_cases hempty :
      (chunks.filter (fun c => decide (MIN_SIMILARITY ≤ c.similarity_score))).isEmpty
  · rw [if_pos hempty] at hok
    exact Except.noConfusion hok
  rw [if_neg hempty] at hok
  have hpair := Except.ok.inj hok
  have hresp := congrArg Prod.fst hpair
  have hkept := congrArg Prod.snd hpair
  dsimp only at hresp hkept
  subst hresp
  subst hkept
  refine ⟨rfl, ?_, ?_, ?_⟩
  · intro g hg
    have hmem := List.mem_filter.mp hg
    rcases List.any_eq_true.mp hmem.2 with ⟨i, hi, hcontains⟩
    refine ⟨i, hi, ?_⟩
    have hids := List.mem_of_elem_eq_true hcontains
    rcases List.mem_map.mp hids with ⟨c, hc, hcid⟩
    rcases dedupSources_covers hc with ⟨s, hs, hsid⟩
    exact ⟨s, hs, by rw [hsid, hcid]⟩
  · intro s hs
    rcases dedupSources_no_fabrication hs with ⟨c, hc, hceq⟩
    exact ⟨c, List.mem_of_mem_filter hc, hceq⟩
  · intro hne
    show INSUFFICIENT_INFO_CAVEAT ∈
      (if (drafted.filter (fun g => g.grounding.any (fun i =>
          ((chunks.filter (fun c => decide (MIN_SIMILARITY ≤ c.similarity_score))).map
            RetrievedChunk.document_id).contains i))).length = drafted.length then []
        else [INSUFFICIENT_INFO_CAVEAT])
    rw [if_neg hne]
    exact List.mem_singleton.mpr rfl

/-- Sample retrieved chunk used to instantiate the grounding invariant. -/
def sampleChunk : RetrievedChunk :=
  { document_id := 7
    title := "Insurance Claim Procedures"
    authority := "IRDAI"
    text := "How to appeal a rejected claim."
    similarity_score := 1/2 }

/-- Sample drafted grounded suggestion citing the sample chunk. -/
def sampleDrafted : GroundedSuggestion :=
  { suggestion :=
      { title := "File an appeal"
        description := "Submit a written appeal to the insurer."
        why_it_matters := "Deadlines apply to appeals."
        urgency := "high"
        can_skip := false
        estimated_time := some "2 weeks" }
    grounding := [7] }

/-- Expected output of generate on the sample inputs. -/
def sampleGenerated : GuidanceResponse :=
  { suggestions := [sampleDrafted.suggestion]
    sources := [chunkSource sampleChunk]
    confidence := sampleResponse.confidence
    caveats := []
    cross_domain_insights := []
    metadata := sampleResponse.metadata }

theorem generate_grounding_invariant_witness :
    (generate [sampleChunk] [sampleDrafted] sampleResponse.confidence []
        sampleResponse.metadata = Except.ok (sampleGenerated, [sampleDrafted]))
    ∧ (sampleGenerated.suggestions = [sampleDrafted].map GroundedSuggestion.suggestion
      ∧ (∀ g ∈ [sampleDrafted], ∃ i ∈ g.grounding,
          ∃ s ∈ sampleGenerated.sources, s.document_id = i)
      ∧ (∀ s ∈ sampleGenerated.sources, ∃ c ∈ [sampleChunk], s = chunkSource c)
      ∧ (([sampleDrafted] : List GroundedSuggestion).length ≠
            ([sampleDrafted] : List GroundedSuggestion).length →
          INSUFFICIENT_INFO_CAVEAT ∈ sampleGenerated.caveats)) :=
  ⟨by norm_num [generate, sampleChunk, sampleDrafted, sampleGenerated,
      sampleResponse, MIN_SIMILARITY, chunkSource, dedupSources, List.filter],
    generate_grounding_invariant [sampleChunk] [sampleDrafted]
      sampleResponse.confidence [] sampleResponse.metadata sampleGenerated
      [sampleDrafted]
      (by norm_num [generate, sampleChunk, sampleDrafted, sampleGenerated,
        sampleResponse, MIN_SIMILARITY, chunkSource, dedupSources, List.filter])⟩

/-! ## Frontend intake handlers (src/unnamed/part_015) -/

/-- Outcome of a fetch call as observed by the frontend handlers: a 2xx JSON
response, a non-2xx response whose JSON body may carry a detail string, or a
thrown network error. -/
inductive FetchOutcome (α : Type) where
  | ok (data : α)
  | httpError (detail : Option String)
  | networkError
deriving DecidableEq

/-- Component state of the intake page relevant to classification and
situation creation (src/unnamed/part_015:36–41), plus the alert dialog
raised during the current handler call (part_015:92, 96, 126, 130). -/
structure HomeState where
  message : String
  loading : Bool
  classification : Option DomainClassification
  hasSearched : Bool
  alertMsg : Option String
deriving DecidableEq

/-- Result of one handleClassify call: whether the network request was issued
and the state after the call. -/
structure ClassifyCall where
  requestIssued : Bool
  state : HomeState
deriving DecidableEq

/-- Whether a string is empty or whitespace-only: the condition under which
the JavaScript guard `!message.trim()` rejects the message. -/
def isBlank (s : String) : Bool := s.toList.all Char.isWhitespace

/-- Embedded from src/unnamed/part_015:70–101 (handleClassify): a
whitespace-only message is rejected by the guard before any request; on a
successful response the classification is stored; on an error response or a
network error the classification stays null and an alert is raised. -/
def handleClassify (st : HomeState) (result : FetchOutcome DomainClassification) :
    ClassifyCall :=
  if isBlank st.message then { requestIssued := false, state := st }
  else
    match result with
    | FetchOutcome.ok data =>
      { requestIssued := true
        state := { st with
          loading := false
          hasSearched := true
          classification := some data
          alertMsg := none } }
    | FetchOutcome.httpError detail =>
      { requestIssued := true
        state := { st with
          loading := false
          hasSearched := true
          classification := none
          alertMsg := some ("Classification failed: " ++ detail.getD "Unknown error") } }
    | FetchOutcome.networkError =>
      { requestIssued := true
        state := { st with
          loading := false
          hasSearched := true
          classification := none
          alertMsg := some "Error classifying your query" } }

/-- Disabled condition of the Get Guidance button
(src/unnamed/part_015:193): disabled while loading or while the trimmed
message is empty. -/
def classifyButtonDisabled (st : HomeState) : Bool :=
  st.loading || isBlank st.message

/-- Result of one createSituation call: whether the request was issued, the
payload (description, priority) sent, the navigation target on success, and
any alert raised. -/
structure CreateCall where
  requestIssued : Bool
  payload : Option (String × String)
  navigatedTo : Option String
  alertMsg : Option String
deriving DecidableEq

/-- Embedded from src/unnamed/part_015:103–132 (createSituation): returns
immediately when no classification is stored; otherwise posts the message as
description with priority urgent exactly when risk_score ≥ 3, navigating to
the new situation on success. -/
def createSituation (st : HomeState) (result : FetchOutcome ℕ) : CreateCall :=
  match st.classification with
  | none =>
    { requestIssued := false, payload := none, navigatedTo := none, alertMsg := none }
  | some c =>
    let priority := if 3 ≤ c.risk_assessment.risk_score then "urgent" else "normal"
    match result with
    | FetchOutcome.ok sid =>
      { requestIssued := true
        payload := some (st.message, priority)
        navigatedTo := some ("/situation/" ++ toString sid)
        alertMsg := none }
    | FetchOutcome.httpError detail =>
      { requestIssued := true
        payload := some (st.message, priority)
        navigatedTo := none
        alertMsg := some ("Failed to create situation: " ++ detail.getD "Unknown error") }
    | FetchOutcome.networkError =>
      { requestIssued := true
        payload := some (st.message, priority)
        navigatedTo := none
        alertMsg := some "Error creating situation" }

/-! ## Clarification flow (src/unnamed/part_017, ClarifyPage) -/

/-- A clarification question (src/unnamed/part_017:232–237). -/
structure ClarificationQuestion where
  id : String
  text : String
  type : String
  options : Option (List String)
deriving DecidableEq

/-- The situation loaded by the clarify page (src/unnamed/part_017:239–244). -/
structure ClarifySituation where
  id : ℕ
  title : String
  primary_domain : String
  clarification_questions : Option (List ClarificationQuestion)
deriving DecidableEq

/-- A clarification answer as submitted (src/unnamed/part_017:295–299). -/
structure ClarificationAnswer where
  question_id : String
  question_text : String
  answer : String
deriving DecidableEq

/-- Body of the guidance request posted by handleSubmit
(src/unnamed/part_017:308–313). -/
structure GuidanceRequest where
  query : String
  domain : String
  situation_id : ℕ
  clarification_answers : List ClarificationAnswer
deriving DecidableEq

/-- Embedded from src/unnamed/part_017:282–284 (handleAnswerChange): the
answers record is updated by key, replacing the value when the question id is
already present and appending it otherwise (JavaScript object spread with a
computed key). -/
def upsertAnswer (answers : List (String × String)) (qid v : String) :
    List (String × String) :=
  if answers.any (fun p => p.1 == qid) then
    answers.map (fun p => if p.1 == qid then (qid, v) else p)
  else answers ++ [(qid, v)]

/-- Keys of the answers record, in insertion order. -/
def answerKeys (answers : List (String × String)) : List String :=
  answers.map Prod.fst

/-- Text of the question with the given id, or the empty string when the
question list is absent or the id is not found
(src/unnamed/part_017:297, the `find` with fallback to an empty string). -/
def findQuestionText (questions : Option (List ClarificationQuestion))
    (qid : String) : String :=
  match questions with
  | none => ""
  | some qs =>
    match qs.find? (fun q => q.id == qid) with
    | some q => q.text
    | none => ""

/-- Embedded from src/unnamed/part_017:295–299: the clarification answers
sent with the guidance request — the empty sequence when skipping, otherwise
one entry per answers-record key carrying the question id, the denormalized
question text, and the answer. -/
def buildClarificationAnswers (skip : Bool) (answers : List (String × String))
    (s : ClarifySituation) : List ClarificationAnswer :=
  if skip then []
  else answers.map (fun p =>
    { question_id := p.1
      question_text := findQuestionText s.clarification_questions p.1
      answer := p.2 })

/-- Result of one handleSubmit call on the clarify page. -/
structure SubmitCall where
  requestIssued : Bool
  request : Option GuidanceRequest
  navigatedTo : Option String
deriving DecidableEq

/-- Embedded from src/unnamed/part_017:286–330 (handleSubmit): posts the
guidance request built from the situation and the (possibly skipped)
clarification answers, navigating to the situation page on success. -/
def handleSubmit (s : ClarifySituation) (answers : List (String × String))
    (skip : Bool) (result : FetchOutcome Unit) : SubmitCall :=
  let req : GuidanceRequest :=
    { query := s.title
      domain := s.primary_domain
      situation_id := s.id
      clarification_answers := buildClarificationAnswers skip answers s }
  match result with
  | FetchOutcome.ok _ =>
    { requestIssued := true
      request := some req
      navigatedTo := some ("/situation/" ++ toString s.id) }
  | FetchOutcome.httpError _ =>
    { requestIssued := true, request := some req, navigatedTo := none }
  | FetchOutcome.networkError =>
    { requestIssued := true, request := some req, navigatedTo := none }

/-! ## Claim theorems: frontend handlers -/

/-- C6: a failing classify call (error response or network error) stores no
classification, raises the failure alert, and creates no situation; situation
creation is only reachable from a state holding a successful classification,
via the separate createSituation handler. -/
theorem classify_failure_creates_no_situation (st : HomeState)
    (detail : Option String) (res2 : FetchOutcome ℕ)
    (hmsg : isBlank st.message = false) :
    ((handleClassify st (FetchOutcome.httpError detail)).requestIssued = true
      ∧ (handleClassify st (FetchOutcome.httpError detail)).state.classification = none
      ∧ (handleClassify st (FetchOutcome.httpError detail)).state.alertMsg =
          some ("Classification failed: " ++ detail.getD "Unknown error")
      ∧ (createSituation (handleClassify st (FetchOutcome.httpError detail)).state
          res2).requestIssued = false)
    ∧ ((handleClassify st FetchOutcome.networkError).requestIssued = true
      ∧ (handleClassify st FetchOutcome.networkError).state.classification = none
      ∧ (handleClassify st FetchOutcome.networkError).state.alertMsg =
          some "Error classifying your query"
      ∧ (createSituation (handleClassify st FetchOutcome.networkError).state
          res2).requestIssued = false)
    ∧ (∀ st2 : HomeState, ∀ r2 : FetchOutcome ℕ,
        (createSituation st2 r2).requestIssued = true → st2.classification ≠ none) := by
  have hcond : ¬ (isBlank st.message = true) := by simp [hmsg]
  refine ⟨?_, ?_, ?_⟩
  · unfold handleClassify
    rw [if_neg hcond]
    exact ⟨rfl, rfl, rfl, rfl⟩
  · unfold handleClassify
    rw [if_neg hcond]
    exact ⟨rfl, rfl, rfl, rfl⟩
  · intro st2 r2 hreq hnone
    unfold createSituation at hreq
    rw [hnone] at hreq
    exact Bool.noConfusion hreq

/-- Sample intake state with a non-blank message and no stored
classification, used to instantiate the failure-path theorems. -/
def sampleIntakeState : HomeState :=
  { message := "My insurance claim was rejected"
    loading := false
    classification := none
    hasSearched := false
    alertMsg := none }

theorem classify_failure_creates_no_situation_witness :
    (isBlank sampleIntakeState.message = false)
    ∧ (((handleClassify sampleIntakeState
          (FetchOutcome.httpError (some "upstream unavailable"))).requestIssued = true
      ∧ (handleClassify sampleIntakeState
          (FetchOutcome.httpError (some "upstream unavailable"))).state.classification = none
      ∧ (handleClassify sampleIntakeState
          (FetchOutcome.httpError (some "upstream unavailable"))).state.alertMsg =
          some ("Classification failed: " ++
            (some "upstream unavailable").getD "Unknown error")
      ∧ (createSituation (handleClassify sampleIntakeState
          (FetchOutcome.httpError (some "upstream unavailable"))).state
          (FetchOutcome.ok 1)).requestIssued = false)
    ∧ ((handleClassify sampleIntakeState FetchOutcome.networkError).requestIssued = true
      ∧ (handleClassify sampleIntakeState
          FetchOutcome.networkError).state.classification = none
      ∧ (handleClassify sampleIntakeState FetchOutcome.networkError).state.alertMsg =
          some "Error classifying your query"
      ∧ (createSituation (handleClassify sampleIntakeState
          FetchOutcome.networkError).state (FetchOutcome.ok 1)).requestIssued = false)
    ∧ (∀ st2 : HomeState, ∀ r2 : FetchOutcome ℕ,
        (createSituation st2 r2).requestIssued = true → st2.classification ≠ none)) :=
  ⟨by decide,
    classify_failure_creates_no_situation sampleIntakeState
      (some "upstream unavailable") (FetchOutcome.ok 1) (by decide)⟩

/-- C7: a whitespace-only (or empty) message is rejected locally by the
guard: no classification request is issued, the component state is left
unchanged (in particular no classification-failure alert is raised and the
input is not marked as a failed search), and the submit button is disabled
for such input. -/
theorem blank_message_rejected_locally (st : HomeState)
    (result : FetchOutcome DomainClassification)
    (hmsg : isBlank st.message = true) :
    (handleClassify st result).requestIssued = false
    ∧ (handleClassify st result).state = st
    ∧ classifyButtonDisabled st = true := by
  unfold handleClassify
  rw [if_pos hmsg]
  refine ⟨rfl, rfl, ?_⟩
  unfold classifyButtonDisabled
  rw [hmsg, Bool.or_true]

/-- Sample intake state whose message is whitespace-only. -/
def sampleBlankState : HomeState :=
  { message := "   "
    loading := false
    classification := none
    hasSearched := false
    alertMsg := none }

theorem blank_message_rejected_locally_witness :
    (isBlank sampleBlankState.message = true)
    ∧ ((handleClassify sampleBlankState FetchOutcome.networkError).requestIssued = false
      ∧ (handleClassify sampleBlankState FetchOutcome.networkError).state = sampleBlankState
      ∧ classifyButtonDisabled sampleBlankState = true) :=
  ⟨by decide,
    blank_message_rejected_locally sampleBlankState FetchOutcome.networkError (by decide)⟩

/-- C8: submitting clarification with skip = true always issues the guidance
request with an empty clarification-answer sequence, whatever answers were
entered, and navigates to the situation page on success — skipping is
unconditionally allowed. -/
theorem skip_sends_empty_answers (s : ClarifySituation)
    (answers : List (String × String)) (result : FetchOutcome Unit) :
    (handleSubmit s answers true result).requestIssued = true
    ∧ (handleSubmit s answers true result).request =
        some
          { query := s.title
            domain := s.primary_domain
            situation_id := s.id
            clarification_answers := [] }
    ∧ (handleSubmit s answers true (FetchOutcome.ok ())).navigatedTo =
        some ("/situation/" ++ toString s.id) := by
  refine ⟨?_, ?_, rfl⟩ <;> cases result <;> rfl

/-! ### C9: idempotent upsert of clarification answers -/

lemma upsert_keys_present (answers : List (String × String)) (qid v : String)
    (hpres : answers.any (fun p => p.1 == qid) = true) :
    answerKeys (upsertAnswer answers qid v) = answerKeys answers := by
  unfold upsertAnswer answerKeys
  rw [if_pos hpres, List.map_map]
  refine List.map_congr_left ?_
  intro p _
  by_cases hpq : p.1 == qid
  · simp only [Function.comp_apply, if_pos hpq]
    exact (eq_of_beq hpq).symm
  · simp only [Function.comp_apply, if_neg hpq]

lemma upsert_keys_absent (answers : List (String × String)) (qid v : String)
    (hpres : answers.any (fun p => p.1 == qid) = false) :
    answerKeys (upsertAnswer answers qid v) = answerKeys answers ++ [qid] := by
  unfold upsertAnswer answerKeys
  rw [if_neg (by simp [hpres]), List.map_append]
  rfl

lemma upsert_keys_nodup (answers : List (String × String)) (qid v : String)
    (h : (answerKeys answers).Nodup) :
    (answerKeys (upsertAnswer answers qid v)).Nodup := by
  by_cases hpres : answers.any (fun p => p.1 == qid) = true
  · rw [upsert_keys_present answers qid v hpres]
    exact h
  · rw [upsert_keys_absent answers qid v (Bool.eq_false_iff.mpr hpres)]
    refine List.Nodup.append h (List.nodup_singleton qid) ?_
    intro a ha hmem
    have haq : a = qid := List.mem_singleton.mp hmem
    rcases List.mem_map.mp ha with ⟨p, hp, hpa⟩
    refine hpres (List.any_eq_true.mpr ⟨p, hp, ?_⟩)
    rw [hpa, haq]
    exact beq_self_eq_true qid

lemma upsert_twice (answers : List (String × String)) (qid v1 v2 : String) :
    upsertAnswer (upsertAnswer answers qid v1) qid v2 = upsertAnswer answers qid v2 := by
  by_cases hpres : answers.any (fun p => p.1 == qid) = true
  · have hstep : upsertAnswer answers qid v1 =
        answers.map (fun p => if p.1 == qid then (qid, v1) else p) := by
      unfold upsertAnswer
      rw [if_pos hpres]
    have hpres2 : (answers.map (fun p => if p.1 == qid then (qid, v1) else p)).any
        (fun p => p.1 == qid) = true := by
      rcases List.any_eq_true.mp hpres with ⟨p, hp, hpq⟩
      refine List.any_eq_true.mpr ⟨(qid, v1), ?_, beq_self_eq_true qid⟩
      have hfp : (if p.1 == qid then (qid, v1) else p) = (qid, v1) := if_pos hpq
      exact List.mem_map.mpr ⟨p, hp, hfp⟩
    rw [hstep]
    unfold upsertAnswer
    rw [if_pos hpres2, if_pos hpres, List.map_map]
    refine List.map_congr_left ?_
    intro p _
    by_cases hpq : p.1 == qid
    · simp only [Function.comp_apply, if_pos hpq]
      rw [if_pos (beq_self_eq_true qid)]
    · simp only [Function.comp_apply, if_neg hpq, if_neg hpq]
  · have hfalse := Bool.eq_false_iff.mpr hpres
    have hstep : upsertAnswer answers qid v1 = answers ++ [(qid, v1)] := by
      unfold upsertAnswer
      rw [if_neg (by simp [hfalse])]
    have hpres2 : (answers ++ [(qid, v1)]).any (fun p => p.1 == qid) = true := by
      refine List.any_eq_true.mpr ⟨(qid, v1), List.mem_append_right _ ?_, beq_self_eq_true qid⟩
      exact List.mem_singleton.mpr rfl
    have hkeep : ∀ p ∈ answers, (if p.1 == qid then ((qid, v2) : String × String) else p) = p := by
      intro p hp
      have hne : ¬ ((p.1 == qid) = true) :=
        fun hc => hpres (List.any_eq_true.mpr ⟨p, hp, hc⟩)
      rw [if_neg hne]
    rw [hstep]
    unfold upsertAnswer
    rw [if_pos hpres2, if_neg (by simp [hfalse]), List.map_append]
    have hmap : answers.map (fun p => if p.1 == qid then (qid, v2) else p) = answers := by
      rw [List.map_congr_left hkeep]
      exact List.map_id _
    rw [hmap]
    have : ([(qid, v1)].map (fun p => if p.1 == qid then ((qid, v2) : String × String) else p)) =
        [(qid, v2)] := by
      simp [beq_self_eq_true]
    rw [this]

lemma build_ids (answers : List (String × String)) (s : ClarifySituation) :
    (buildClarificationAnswers false answers s).map ClarificationAnswer.question_id =
      answerKeys answers := by
  unfold buildClarificationAnswers answerKeys
  rw [if_neg (by simp), List.map_map]
  rfl

/-- C9: clarification answers are upserted idempotently by question id —
the answers record keeps distinct question ids, re-answering the same
question replaces the prior value, the submitted sequence contains at most
one entry per question id, and every submitted entry carries the question
id, the denormalized question text, and the answer string. -/
theorem clarification_upsert_idempotent (answers : List (String × String))
    (qid v1 v2 : String) (s : ClarifySituation)
    (h : (answerKeys answers).Nodup) :
    (answerKeys (upsertAnswer answers qid v1)).Nodup
    ∧ upsertAnswer (upsertAnswer answers qid v1) qid v2 = upsertAnswer answers qid v2
    ∧ ((buildClarificationAnswers false (upsertAnswer answers qid v1) s).map
        ClarificationAnswer.question_id).Nodup
    ∧ (∀ p ∈ upsertAnswer answers qid v1,
        ({ question_id := p.1
           question_text := findQuestionText s.clarification_questions p.1
           answer := p.2 } : ClarificationAnswer) ∈
          buildClarificationAnswers false (upsertAnswer answers qid v1) s) := by
  refine ⟨upsert_keys_nodup answers qid v1 h, upsert_twice answers qid v1 v2, ?_, ?_⟩
  · rw [build_ids]
    exact upsert_keys_nodup answers qid v1 h
  · intro p hp
    unfold buildClarificationAnswers
    rw [if_neg (by simp)]
    exact List.mem_map_of_mem _ hp

/-- Sample clarify-page situation with one choice question. -/
def sampleClarifySituation : ClarifySituation :=
  { id := 3
    title := "My insurance claim was rejected"
    primary_domain := "Insurance"
    clarification_questions :=
      some [{ id := "q2"
              text := "Is this urgent or routine?"
              type := "choice"
              options := some ["urgent", "routine"] }] }

theorem clarification_upsert_idempotent_witness :
    ((answerKeys [("q1", "yes")]).Nodup)
    ∧ ((answerKeys (upsertAnswer [("q1", "yes")] "q2" "urgent")).Nodup
      ∧ upsertAnswer (upsertAnswer [("q1", "yes")] "q2" "urgent") "q2" "routine" =
          upsertAnswer [("q1", "yes")] "q2" "routine"
      ∧ ((buildClarificationAnswers false (upsertAnswer [("q1", "yes")] "q2" "urgent")
          sampleClarifySituation).map ClarificationAnswer.question_id).Nodup
      ∧ (∀ p ∈ upsertAnswer [("q1", "yes")] "q2" "urgent",
          ({ question_id := p.1
             question_text :=
               findQuestionText sampleClarifySituation.clarification_questions p.1
             answer := p.2 } : ClarificationAnswer) ∈
            buildClarificationAnswers false (upsertAnswer [("q1", "yes")] "q2" "urgent")
              sampleClarifySituation)) :=
  ⟨by decide,
    clarification_upsert_idempotent [("q1", "yes")] "q2" "urgent" "routine"
      sampleClarifySituation (by decide)⟩

/-- C10: a situation created from a stored classification is posted with
priority urgent exactly when the classification risk_score is at least 3,
and with priority normal otherwise. -/
theorem created_priority_matches_risk (st : HomeState) (c : DomainClassification)
    (result : FetchOutcome ℕ) (hc : st.classification = some c) :
    (createSituation st result).payload =
      some (st.message,
        if 3 ≤ c.risk_assessment.risk_score then "urgent" else "normal")
    ∧ ((createSituation st result).payload = some (st.message, "urgent") ↔
        3 ≤ c.risk_assessment.risk_score) := by
  unfold createSituation
  rw [hc]
  have hpayload : ∀ pr : String,
      (match result with
        | FetchOutcome.ok sid =>
          ({ requestIssued := true
             payload := some (st.message, pr)
             navigatedTo := some ("/situation/" ++ toString sid)
             alertMsg := none } : CreateCall)
        | FetchOutcome.httpError detail =>
          { requestIssued := true
            payload := some (st.message, pr)
            navigatedTo := none
            alertMsg := some ("Failed to create situation: " ++ detail.getD "Unknown error") }
        | FetchOutcome.networkError =>
          { requestIssued := true
            payload := some (st.message, pr)
            navigatedTo := none
            alertMsg := some "Error creating situation" }).payload =
        some (st.message, pr) := by
    intro pr
    cases result <;> rfl
  refine ⟨hpayload _, ?_⟩
  rw [hpayload _]
  by_cases h3 : 3 ≤ c.risk_assessment.risk_score
  · rw [if_pos h3]
    exact ⟨fun _ => h3, fun _ => rfl⟩
  · rw [if_neg h3]
    refine ⟨fun heq => ?_, fun hcontra => absurd hcontra h3⟩
    have hstr : ("normal" : String) = "urgent" :=
      congrArg Prod.snd (Option.some.inj heq)
    exact absurd hstr (by decide)

/-- Sample state holding a risk-4 classification. -/
def sampleClassifiedState : HomeState :=
  { message := "I am being threatened with arrest"
    loading := false
    classification := some
      { primary_domain := "Legal"
        secondary_domain := none
        related_domains := []
        confidence := 4/5
        user_friendly_summary := "legal jeopardy"
        risk_assessment :=
          { safe_to_proceed := false
            risk_score := 4
            recommendation := "Consult a lawyer."
            message := some "This may need professional help." } }
    hasSearched := true
    alertMsg := none }

theorem created_priority_matches_risk_witness :
    (sampleClassifiedState.classification = some
      { primary_domain := "Legal"
        secondary_domain := none
        related_domains := []
        confidence := 4/5
        user_friendly_summary := "legal jeopardy"
        risk_assessment :=
          { safe_to_proceed := false
            risk_score := 4
            recommendation := "Consult a lawyer."
            message := some "This may need professional help." } })
    ∧ ((createSituation sampleClassifiedState (FetchOutcome.ok 2)).payload =
        some (sampleClassifiedState.message,
          if 3 ≤ (4 : ℤ) then "urgent" else "normal")
      ∧ ((createSituation sampleClassifiedState (FetchOutcome.ok 2)).payload =
          some (sampleClassifiedState.message, "urgent") ↔ 3 ≤ (4 : ℤ))) :=
  ⟨rfl,
    created_priority_matches_risk sampleClassifiedState
      { primary_domain := "Legal"
        secondary_domain := none
        related_domains := []
        confidence := 4/5
        user_friendly_summary := "legal jeopardy"
        risk_assessment :=
          { safe_to_proceed := false
            risk_score := 4
            recommendation := "Consult a lawyer."
            message := some "This may need professional help." } }
      (FetchOutcome.ok 2) rfl⟩

end LifeFlow
